import Mathlib

/-!
Verification of the DHCP lease engine (`src/dhcp_client.c`) and the peer
resolution step of the bring-up orchestrator (`main` loop) of the
tdorssers/ntp-clock repository, as a shallow embedding in Lean 4.

Global mutable C state becomes an explicit `DhcpState` record threaded through
the functions; the packet buffer is a total byte function `Nat → Nat`; machine
integers are `Nat` with explicit `% 2^8` / `% 2^32` where C overflow matters;
calls to the network driver (broadcast enable/disable, packet transmission)
are recorded as a list of `Event`s.
-/

namespace NtpClock

/-- Offset of the UDP payload in the packet buffer: 14 (Ethernet) + 20 (IPv4)
+ 8 (UDP) bytes of headers.  The constant comes from `net.h`, which is not
part of this repository snapshot; the value is the standard layout used by
this stack. -/
def UDP_DATA_P : Nat := 42

/-- Offset of the low byte of the UDP source port (from `net.h`, standard
layout: Ethernet 14 + IPv4 20 + 1). -/
def UDP_SRC_PORT_L_P : Nat := 35

/-- `#define DHCP_OPTION_OFFSET 240` (relative to `UDP_DATA_P`). -/
def DHCP_OPTION_OFFSET : Nat := 240

/-- `#define MAGIC_COOKIE_P 236` (relative to `UDP_DATA_P`). -/
def MAGIC_COOKIE_P : Nat := 236

/-- `#define DHCP_SRV_SRC_PORT 67`. -/
def DHCP_SRV_SRC_PORT : Nat := 67

/-- Four bytes of an IPv4 address, as copied by the 4-byte `memcpy` calls. -/
abbrev IP4 := Nat × Nat × Nat × Nat

/-- The static mutable state of `dhcp_client.c`: the globals
`dhcp_yiaddr`, `dhcp_opt_defaultgw`, `dhcp_opt_mask`, `dhcp_opt_server_id`,
`dhcp_opt_dns`, `dhcp_opt_message_type`, `dhcp_tid`, `dhcp_opt_leasetime`,
`dhcp_cnt_down`, `dhcp_retry`, `dhcp_state`.
`state` encoding (comment in the source): 0 = init, 1 = selecting,
2 = requesting, 3 = bound, 4 = rebinding. -/
structure DhcpState where
  yiaddr : IP4
  defaultgw : IP4
  mask : IP4
  server_id : IP4
  dns : IP4
  message_type : Nat
  tid : Nat
  leasetime : Nat
  cnt_down : Nat
  retry : Nat
  state : Nat
deriving DecidableEq, Repr

/-- The initial values of the globals of `dhcp_client.c` (C static
initialisers; `dhcp_retry` is zero-initialised). -/
def dhcp0 : DhcpState :=
  { yiaddr := (0, 0, 0, 0)
    defaultgw := (0, 0, 0, 0)
    mask := (0, 0, 0, 0)
    server_id := (0, 0, 0, 0)
    dns := (8, 8, 8, 8)
    message_type := 0
    tid := 0
    leasetime := 4294967295
    cnt_down := 0
    retry := 0
    state := 0 }

/-- Externally visible driver calls made by the engine, in execution order. -/
inductive Event where
  | enableBroadcast
  | disableBroadcast
  | sendDiscover
  | sendRequest
  | sendRenewRequest
deriving DecidableEq, Repr

/-- Result of one call of a packet-loop entry point: the C return value, the
new engine state, and the driver calls made during the call. -/
structure PollResult where
  ret : Nat
  st : DhcpState
  evs : List Event
deriving DecidableEq, Repr

/-- `void dhcp_tick(void){ if (dhcp_cnt_down!=0xffffffff) dhcp_cnt_down--; }`
The decrement is 32-bit C arithmetic: `x-1` is `(x + 2^32 - 1) % 2^32`. -/
def dhcp_tick (s : DhcpState) : DhcpState :=
  if s.cnt_down ≠ 4294967295 then
    { s with cnt_down := (s.cnt_down + 4294967295) % 4294967296 }
  else s

/-- `void init_dhcp(uint8_t initial_tid) { dhcp_state=0; dhcp_tid=initial_tid; }` -/
def init_dhcp (initial_tid : Nat) (s : DhcpState) : DhcpState :=
  { s with state := 0, tid := initial_tid }

/-- `uint8_t is_dhcp_cnt_down_zero(void) { return(dhcp_cnt_down==0); }` -/
def is_dhcp_cnt_down_zero (s : DhcpState) : Bool :=
  s.cnt_down = 0

/-- `set_dhcp_renew_timer`: `dhcp_cnt_down=dhcp_opt_leasetime/divisor;` and if
the quotient is zero, `dhcp_state=0`. -/
def set_dhcp_renew_timer (divisor : Nat) (s : DhcpState) : DhcpState :=
  let s1 := { s with cnt_down := s.leasetime / divisor }
  if is_dhcp_cnt_down_zero s1 then { s1 with state := 0 } else s1

/-- `set_dhcp_retry_timer`: `dhcp_cnt_down=dhcp_retry;`. -/
def set_dhcp_retry_timer (s : DhcpState) : DhcpState :=
  { s with cnt_down := s.retry }

/-- The option-walking loop of `dhcp_get_message_type`: scan `(code, len,
value…)` triples from `option_idx` while `option_idx+2 < plen`, stop on a
zero/overrunning length, return the value byte of option code 53.
The loop advances `option_idx` by at least 3 per iteration and runs only
while `option_idx + 2 < plen`, so `plen` steps of fuel always suffice; the
fuel only makes the recursion structural. -/
def dhcp_get_message_type_loop (buf : Nat → Nat) (plen : Nat) :
    Nat → Nat → Nat
  | 0, _ => 0
  | fuel + 1, option_idx =>
    if option_idx + 2 < plen then
      let option_len := buf (option_idx + 1)
      if option_len < 1 ∨ option_idx + option_len + 1 > plen then 0
      else if buf option_idx = 53 then buf (option_idx + 2)
      else dhcp_get_message_type_loop buf plen fuel (option_idx + 2 + option_len)
    else 0

/-- `uint8_t dhcp_get_message_type(uint8_t *buf,uint16_t plen)`. -/
def dhcp_get_message_type (buf : Nat → Nat) (plen : Nat) : Nat :=
  if plen < UDP_DATA_P + DHCP_OPTION_OFFSET + 3 then 0
  else dhcp_get_message_type_loop buf plen plen (UDP_DATA_P + DHCP_OPTION_OFFSET)

/-- `uint8_t is_dhcp_msg_for_me(uint8_t *buf,uint16_t plen)`: length check,
source-port check, boot-reply check, the four-byte transaction-id check
(`while (i<4) if (buf[UDP_DATA_P+4+i]!=dhcp_tid) return(0);`), and the
side effect of copying out a non-zero `yiaddr` field on acceptance. -/
def is_dhcp_msg_for_me (buf : Nat → Nat) (plen : Nat) (s : DhcpState) :
    Nat × DhcpState :=
  if plen < UDP_DATA_P + DHCP_OPTION_OFFSET + 3 then (0, s)
  else if buf UDP_SRC_PORT_L_P ≠ DHCP_SRV_SRC_PORT then (0, s)
  else if buf UDP_DATA_P ≠ 2 then (0, s)
  else if buf (UDP_DATA_P + 4) ≠ s.tid then (0, s)
  else if buf (UDP_DATA_P + 5) ≠ s.tid then (0, s)
  else if buf (UDP_DATA_P + 6) ≠ s.tid then (0, s)
  else if buf (UDP_DATA_P + 7) ≠ s.tid then (0, s)
  else if buf (UDP_DATA_P + 16) ≠ 0 then
    (1, { s with yiaddr := (buf (UDP_DATA_P + 16), buf (UDP_DATA_P + 17),
                            buf (UDP_DATA_P + 18), buf (UDP_DATA_P + 19)) })
  else (1, s)

/-- One step `dhcp_opt_leasetime=(dhcp_opt_leasetime<<8) | buf[...]` of the
lease-time accumulation, in 32-bit C arithmetic. -/
def lease_accum (lt b : Nat) : Nat :=
  ((lt * 256) % 4294967296) ||| b

/-- The four iterations of the lease-time accumulation of option 51. -/
def parse_leasetime (lt b0 b1 b2 b3 : Nat) : Nat :=
  lease_accum (lease_accum (lease_accum (lease_accum lt b0) b1) b2) b3

/-- The option-walking loop of `dhcp_option_parser`, threading the mutated
state.  Case 0 sets `option_idx=plen`, ending the loop with no mutation.
As in `dhcp_get_message_type_loop`, `plen` steps of fuel always suffice and
the fuel only makes the recursion structural. -/
def dhcp_option_parser_loop (buf : Nat → Nat) (plen : Nat) :
    Nat → Nat → DhcpState → DhcpState
  | 0, _, s => s
  | fuel + 1, option_idx, s =>
    if option_idx + 2 < plen then
      let option_len := buf (option_idx + 1)
      if option_len < 1 ∨ option_idx + option_len + 1 > plen then s
      else if buf option_idx = 0 then s
      else
        let s1 : DhcpState :=
          if buf option_idx = 1 then
            if option_len = 4 then
              { s with mask := (buf (option_idx + 2), buf (option_idx + 3),
                                buf (option_idx + 4), buf (option_idx + 5)) }
            else s
          else if buf option_idx = 3 then
            if option_len = 4 then
              { s with defaultgw := (buf (option_idx + 2), buf (option_idx + 3),
                                     buf (option_idx + 4), buf (option_idx + 5)) }
            else s
          else if buf option_idx = 6 then
            { s with dns := (buf (option_idx + 2), buf (option_idx + 3),
                             buf (option_idx + 4), buf (option_idx + 5)) }
          else if buf option_idx = 51 then
            if option_len = 4 then
              { s with leasetime := (parse_leasetime s.leasetime
                  (buf (option_idx + 2)) (buf (option_idx + 3))
                  (buf (option_idx + 4)) (buf (option_idx + 5))) }
            else s
          else if buf option_idx = 53 then
            { s with message_type := buf (option_idx + 2) }
          else if buf option_idx = 54 then
            if option_len = 4 then
              { s with server_id := (buf (option_idx + 2), buf (option_idx + 3),
                                     buf (option_idx + 4), buf (option_idx + 5)) }
            else s
          else s
        dhcp_option_parser_loop buf plen fuel (option_idx + 2 + option_len) s1
    else s

/-- `uint8_t dhcp_option_parser(uint8_t *buf,uint16_t plen)`. -/
def dhcp_option_parse (buf : Nat → Nat) (plen : Nat) (s : DhcpState) :
    Nat × DhcpState :=
  if plen < UDP_DATA_P + DHCP_OPTION_OFFSET + 3 then (0, s)
  else (1, dhcp_option_parser_loop buf plen plen (UDP_DATA_P + DHCP_OPTION_OFFSET) s)

/-- `uint8_t packetloop_dhcp_initial_ip_assignment(uint8_t *buf,uint16_t plen)`.
`linkup` is the value of the external `enc28j60linkup()`; transmissions and
broadcast-reception toggles are returned as events. -/
def packetloop_dhcp_initial_ip_assignment (linkup : Bool) (buf : Nat → Nat)
    (plen : Nat) (s : DhcpState) : PollResult :=
  if ¬linkup then ⟨0, s, []⟩
  else if 2 < s.state then ⟨0, s, []⟩
  else if plen = 0 then
    if s.state = 0 then
      ⟨0, set_dhcp_retry_timer { s with state := 1, retry := 4 },
        [.enableBroadcast, .sendDiscover]⟩
    else if s.state ≠ 0 ∧ is_dhcp_cnt_down_zero s then
      let s1 := { s with tid := (s.tid + 1) % 256, retry := (s.retry * 2) % 256 }
      if 32 < s1.retry then ⟨0, { s1 with state := 0 }, []⟩
      else
        let s2 := set_dhcp_retry_timer s1
        if s2.state = 1 then ⟨0, s2, [.sendDiscover]⟩
        else ⟨0, s2, [.sendRequest]⟩
    else ⟨0, s, []⟩
  else
    let m := is_dhcp_msg_for_me buf plen s
    if m.1 = 1 then
      let cmd := dhcp_get_message_type buf plen
      if cmd = 2 then
        let s2 := set_dhcp_retry_timer { m.2 with state := 2, retry := 4 }
        ⟨0, (dhcp_option_parse buf plen s2).2, [.sendRequest]⟩
      else if cmd = 5 then
        ⟨1, set_dhcp_renew_timer 2 { m.2 with state := 3, retry := 0 },
          [.disableBroadcast]⟩
      else if cmd = 6 then
        ⟨0, { m.2 with state := 0 }, []⟩
      else ⟨0, m.2, []⟩
    else ⟨0, m.2, []⟩

/-- `uint16_t packetloop_dhcp_renewhandler(uint8_t *buf,uint16_t plen)`. -/
def packetloop_dhcp_renewhandler (linkup : Bool) (buf : Nat → Nat)
    (plen : Nat) (s : DhcpState) : PollResult :=
  if s.state < 3 then ⟨plen, s, []⟩
  else if plen = 0 ∧ is_dhcp_cnt_down_zero s then
    if ¬linkup then ⟨plen, s, []⟩
    else
      let s1 := { s with tid := (s.tid + 1) % 256, state := 4 }
      let s2 := set_dhcp_renew_timer 8 s1
      let s3 := { s2 with retry := (s2.retry + 1) % 256 }
      ⟨0, if 3 < s3.retry then { s3 with state := 0 } else s3,
        [.enableBroadcast, .sendRenewRequest]⟩
  else
    let m := is_dhcp_msg_for_me buf plen s
    if m.1 = 1 then
      let cmd := dhcp_get_message_type buf plen
      if cmd = 5 then
        let s1 := { m.2 with state := 3, retry := 0 }
        let s2 := (dhcp_option_parse buf plen s1).2
        ⟨0, set_dhcp_renew_timer 2 s2, [.disableBroadcast]⟩
      else if cmd = 6 then ⟨0, { m.2 with state := 0 }, []⟩
      else ⟨0, m.2, []⟩
    else ⟨plen, m.2, []⟩

/-! ## Bring-up orchestrator: the peer-resolution step of `main` -/

/-- The two address-resolution correlation tags `TRANS_NUM_DNSMAC` and
`TRANS_NUM_NTPMAC` used by the orchestrator. -/
inductive ArpReq where
  | dnsReq
  | ntpReq
deriving DecidableEq, Repr

/-- The orchestrator variables touched by the peer-resolution step of the
`main` loop: `init_state`, `delay_sec`, `arp_retry_count`, `dns_state`,
`have_dns_mac`, `have_ntp_mac` (the two mac-recorded flags set only by the
resolution callback). -/
structure OrchState where
  init_state : Nat
  delay_sec : Nat
  arp_retry_count : Nat
  dns_state : Nat
  have_dns_mac : Bool
  have_ntp_mac : Bool
deriving DecidableEq, Repr

/-- `arpresolver()`: issues a resolution request for the name-resolution peer
if its mac is unknown, else for the time-sync peer if unknown, else none.
`some r` corresponds to the C return value 1 (request sent), `none` to 0. -/
def arpresolver (o : OrchState) : Option ArpReq :=
  if ¬o.have_dns_mac then some .dnsReq
  else if ¬o.have_ntp_mac then some .ntpReq
  else none

/-- `arpresolver_result_callback`: records the resolved mac for the given
correlation tag and clears `delay_sec`. -/
def arpresolver_result_callback (ref : ArpReq) (o : OrchState) : OrchState :=
  match ref with
  | .ntpReq => { o with delay_sec := 0, have_ntp_mac := true }
  | .dnsReq => { o with delay_sec := 0, have_dns_mac := true }

/-- The `init_state==2 && delay_sec==0` block of the `main` loop (the
RESOLVING_PEERS step), returning the new orchestrator state and the
resolution requests issued during the step. -/
def resolvePeersStep (o : OrchState) : OrchState × List ArpReq :=
  if o.init_state = 2 ∧ o.delay_sec = 0 then
    let p :=
      if ¬o.have_dns_mac ∨ ¬o.have_ntp_mac then
        match arpresolver o with
        | some r =>
          let o1 := { o with delay_sec := 2,
                             arp_retry_count := (o.arp_retry_count + 1) % 256 }
          if o1.arp_retry_count = 15 then
            ({ o1 with arp_retry_count := 0, init_state := 0, delay_sec := 0 }, [r])
          else (o1, [r])
        | none => (o, [])
      else (o, [])
    if p.1.have_dns_mac ∧ p.1.have_ntp_mac then
      ({ p.1 with init_state := 3, delay_sec := 0, dns_state := 0 }, p.2)
    else p
  else (o, [])

/-! ## Concrete inputs and derived step functions -/

/-- Build a byte buffer from an association list (unlisted offsets are 0). -/
def bufOf (l : List (Nat × Nat)) : Nat → Nat := fun i =>
  match l.find? (fun p => p.1 = i) with
  | some p => p.2
  | none => 0

/-- The all-zero buffer (used for zero-length polls, where the engine never
reads the buffer). -/
def anybuf : Nat → Nat := fun _ => 0

/-- A correlated acknowledgment for transaction id 7 whose options trailer
advertises message kind 5 and a lease duration of 7200 seconds. -/
def ackBuf7200 : Nat → Nat :=
  bufOf [(35, 67), (42, 2), (46, 7), (47, 7), (48, 7), (49, 7),
         (282, 53), (283, 1), (284, 5),
         (285, 51), (286, 4), (287, 0), (288, 0), (289, 28), (290, 32),
         (291, 255)]

/-- A correlated acknowledgment for transaction id 7 advertising a lease
duration of 1 second. -/
def ackBufLease1 : Nat → Nat :=
  bufOf [(35, 67), (42, 2), (46, 7), (47, 7), (48, 7), (49, 7),
         (282, 53), (283, 1), (284, 5),
         (285, 51), (286, 4), (287, 0), (288, 0), (289, 0), (290, 1),
         (291, 255)]

/-- A correlated negative acknowledgment (message kind 6) for transaction
id 7. -/
def nakBuf : Nat → Nat :=
  bufOf [(35, 67), (42, 2), (46, 7), (47, 7), (48, 7), (49, 7),
         (282, 53), (283, 1), (284, 6), (285, 255)]

/-- An acknowledgment-shaped packet whose third transaction-id byte is 9
instead of 7: correlated-looking but mismatched for an engine holding
transaction id 7. -/
def mmAckBuf : Nat → Nat :=
  bufOf [(35, 67), (42, 2), (46, 7), (47, 7), (48, 9), (49, 7),
         (282, 53), (283, 1), (284, 5), (285, 255)]

/-- An engine state in REQUESTING with transaction id 7 and a stored lease
duration of 3600 seconds (as committed from the offer). -/
def sReq : DhcpState :=
  { dhcp0 with state := 2, tid := 7, leasetime := 3600, retry := 4, cnt_down := 4 }

/-- An engine state in BOUND with transaction id 7, lease duration 16 and an
expired renewal countdown. -/
def sBound : DhcpState :=
  { dhcp0 with state := 3, tid := 7, leasetime := 16, retry := 0, cnt_down := 0 }

/-- One unanswered SELECTING/REQUESTING timeout: the ticks that bring the
countdown to zero followed by one zero-length poll of the
initial-assignment entry point (link up). -/
def timeoutStep (s : DhcpState) : DhcpState :=
  (packetloop_dhcp_initial_ip_assignment true anybuf 0 (dhcp_tick^[s.cnt_down] s)).st

/-- One unanswered renewal cycle: the ticks that bring the countdown to zero
followed by one zero-length poll of the renew handler (link up). -/
def renewCycle (s : DhcpState) : DhcpState :=
  (packetloop_dhcp_renewhandler true anybuf 0 (dhcp_tick^[s.cnt_down] s)).st

/-- The engine state right after activation: `init_dhcp(7)` followed by the
first zero-length poll (which enters SELECTING and arms the 4-second retry
timer). -/
def sAct : DhcpState :=
  (packetloop_dhcp_initial_ip_assignment true anybuf 0 (init_dhcp 7 dhcp0)).st

/-! ## Helper lemmas -/

/-- A countdown of `n` ticks (for non-sentinel `n`) brings the counter to
zero and changes nothing else. -/
theorem tick_iter_to_zero (n : Nat) : ∀ s : DhcpState, s.cnt_down = n →
    n < 4294967295 → dhcp_tick^[n] s = { s with cnt_down := 0 } := by
  induction n with
  | zero =>
    intro s h _
    obtain ⟨a, b, c, d, e, f, g, lt, cd, r, st⟩ := s
    simp_all
  | succ m ih =>
    intro s h hlt
    rw [Function.iterate_succ_apply]
    have hne : s.cnt_down ≠ 4294967295 := by omega
    have h1 : dhcp_tick s = { s with cnt_down := m } := by
      unfold dhcp_tick
      rw [if_pos hne, h]
      have h2 : (m + 1 + 4294967295) % 4294967296 = m := by omega
      rw [h2]
    rw [h1, ih { s with cnt_down := m } rfl (by omega)]

/-- `is_dhcp_msg_for_me` can only change the `yiaddr` field. -/
theorem is_for_me_shape (buf : Nat → Nat) (plen : Nat) (s : DhcpState) :
    ∃ y, (is_dhcp_msg_for_me buf plen s).2 = { s with yiaddr := y } := by
  unfold is_dhcp_msg_for_me
  repeat' split
  all_goals exact ⟨_, rfl⟩

/-- A packet with any mismatched transaction-identifier byte is rejected
by `is_dhcp_msg_for_me` without any state change. -/
theorem is_for_me_mismatch (buf : Nat → Nat) (plen : Nat) (s : DhcpState)
    (hmm : ∃ i, i < 4 ∧ buf (UDP_DATA_P + 4 + i) ≠ s.tid) :
    is_dhcp_msg_for_me buf plen s = (0, s) := by
  obtain ⟨i, hi, hne⟩ := hmm
  simp only [UDP_DATA_P] at hne
  unfold is_dhcp_msg_for_me
  simp only [UDP_DATA_P, UDP_SRC_PORT_L_P, DHCP_OPTION_OFFSET, DHCP_SRV_SRC_PORT]
  interval_cases i <;> norm_num at hne <;> repeat' split
  all_goals simp_all

/-- Evaluation of the renew handler at a zero-length poll with the renewal
countdown expired, the link up and a non-zero next countdown. -/
theorem renew_expiry_poll (buf : Nat → Nat) (s : DhcpState)
    (hst : s.state = 3 ∨ s.state = 4) (hc : s.cnt_down = 0)
    (h8 : s.leasetime / 8 ≠ 0) :
    packetloop_dhcp_renewhandler true buf 0 s =
      ⟨0, { s with tid := (s.tid + 1) % 256,
                   state := if 3 < (s.retry + 1) % 256 then 0 else 4,
                   cnt_down := s.leasetime / 8,
                   retry := (s.retry + 1) % 256 },
        [.enableBroadcast, .sendRenewRequest]⟩ := by
  obtain ⟨a, b, c, d, e, f, g, lt, cd, r, st⟩ := s
  simp only at hst hc h8
  subst hc
  rcases hst with h | h <;> subst h <;>
    simp [packetloop_dhcp_renewhandler, set_dhcp_renew_timer,
      is_dhcp_cnt_down_zero, h8] <;>
    split <;> rfl

/-- One unanswered renewal cycle that stays below the retry budget: the
engine moves to (or stays in) REBINDING with the countdown re-armed to one
eighth of the lease duration. -/
theorem renewCycle_cont (s : DhcpState) (hst : s.state = 3 ∨ s.state = 4)
    (hcLT : s.cnt_down < 4294967295) (h8 : s.leasetime / 8 ≠ 0)
    (hr : (s.retry + 1) % 256 ≤ 3) :
    renewCycle s = { s with tid := (s.tid + 1) % 256, state := 4,
                            cnt_down := s.leasetime / 8,
                            retry := (s.retry + 1) % 256 } := by
  unfold renewCycle
  rw [tick_iter_to_zero s.cnt_down s rfl hcLT]
  have h := renew_expiry_poll anybuf { s with cnt_down := 0 } hst rfl h8
  rw [h, if_neg (show ¬3 < (s.retry + 1) % 256 by omega)]

/-- One unanswered renewal cycle that exhausts the retry budget: the engine
returns to INIT. -/
theorem renewCycle_giveup (s : DhcpState) (hst : s.state = 3 ∨ s.state = 4)
    (hcLT : s.cnt_down < 4294967295) (h8 : s.leasetime / 8 ≠ 0)
    (hr : 3 < (s.retry + 1) % 256) :
    renewCycle s = { s with tid := (s.tid + 1) % 256, state := 0,
                            cnt_down := s.leasetime / 8,
                            retry := (s.retry + 1) % 256 } := by
  unfold renewCycle
  rw [tick_iter_to_zero s.cnt_down s rfl hcLT]
  have h := renew_expiry_poll anybuf { s with cnt_down := 0 } hst rfl h8
  rw [h, if_pos hr]

/-- Evaluation of the initial-assignment entry point on a correlated
acknowledgment. -/
theorem initial_ack_eval (buf : Nat → Nat) (plen : Nat) (s : DhcpState)
    (hst : s.state ≤ 2) (hpl : plen ≠ 0)
    (hm : (is_dhcp_msg_for_me buf plen s).1 = 1)
    (hcmd : dhcp_get_message_type buf plen = 5) :
    packetloop_dhcp_initial_ip_assignment true buf plen s =
      ⟨1, set_dhcp_renew_timer 2
            { (is_dhcp_msg_for_me buf plen s).2 with state := 3, retry := 0 },
        [.disableBroadcast]⟩ := by
  simp [packetloop_dhcp_initial_ip_assignment, hpl, hm, hcmd, Nat.not_lt.mpr hst]

/-! ## Claims -/

/-- C1: any inbound packet (nonzero length) with a transaction-identifier
byte differing from the engine's outstanding transaction identifier is
ignored by both packet-driven entry points: the whole engine state (lease
fields, countdown, retry counter, lease state) is unchanged, in every lease
state, and the entry points return 0 resp. the original length. -/
theorem C1_mismatched_tid_ignored (linkup : Bool) (buf : Nat → Nat)
    (plen : Nat) (s : DhcpState) (hpl : plen ≠ 0)
    (hmm : ∃ i, i < 4 ∧ buf (UDP_DATA_P + 4 + i) ≠ s.tid) :
    (packetloop_dhcp_initial_ip_assignment linkup buf plen s).st = s ∧
    (packetloop_dhcp_initial_ip_assignment linkup buf plen s).ret = 0 ∧
    (packetloop_dhcp_renewhandler linkup buf plen s).st = s ∧
    (packetloop_dhcp_renewhandler linkup buf plen s).ret = plen := by
  have hm := is_for_me_mismatch buf plen s hmm
  cases linkup <;>
    simp [packetloop_dhcp_initial_ip_assignment, packetloop_dhcp_renewhandler,
      hpl, hm]

/-- Witness for C1: a mismatched-id acknowledgment injected in REQUESTING
leaves the state untouched (in particular still REQUESTING). -/
theorem C1_witness :
    (packetloop_dhcp_initial_ip_assignment true mmAckBuf 286 sReq).st = sReq ∧
    (packetloop_dhcp_initial_ip_assignment true mmAckBuf 286 sReq).ret = 0 ∧
    (packetloop_dhcp_renewhandler true mmAckBuf 286 sReq).st = sReq ∧
    (packetloop_dhcp_renewhandler true mmAckBuf 286 sReq).ret = 286 :=
  C1_mismatched_tid_ignored true mmAckBuf 286 sReq (by decide)
    ⟨2, by decide, by decide⟩

/-- C2 counterexample: after 3 consecutive unanswered SELECTING timeouts the
engine is still in SELECTING with a pending 32-second interval, not INIT as
the claim's concrete scenario states (the give-up happens at the 4th
timeout, because the code tests `dhcp_retry>32` and 32 is not above the
limit). -/
theorem C2_cex :
    (timeoutStep^[3] sAct).state = 1 ∧ (timeoutStep^[3] sAct).state ≠ 0 ∧
    (timeoutStep^[3] sAct).cnt_down = 32 := by
  decide

/-- C2 amended: starting from activation (interval 4), after N ≤ 3 unanswered
SELECTING timeouts the engine is still in SELECTING with pending interval
`min (4*2^N) 32` and transaction id incremented once per timeout; the first
three timeouts each re-send the discovery; the 4th timeout doubles the retry
to 64, exceeding the 32-second limit, and gives up to INIT without sending. -/
theorem C2_backoff_amended :
    (∀ N, N ≤ 3 → (timeoutStep^[N] sAct).state = 1 ∧
      (timeoutStep^[N] sAct).cnt_down = min (4 * 2 ^ N) 32 ∧
      (timeoutStep^[N] sAct).tid = 7 + N) ∧
    (∀ N, N ≤ 2 →
      (packetloop_dhcp_initial_ip_assignment true anybuf 0
        (dhcp_tick^[(timeoutStep^[N] sAct).cnt_down] (timeoutStep^[N] sAct))).evs
        = [Event.sendDiscover]) ∧
    (packetloop_dhcp_initial_ip_assignment true anybuf 0
      (dhcp_tick^[(timeoutStep^[3] sAct).cnt_down] (timeoutStep^[3] sAct))).evs
      = [] ∧
    (timeoutStep^[4] sAct).state = 0 := by
  refine ⟨?_, ?_, by decide, by decide⟩
  · intro N hN
    interval_cases N <;> exact ⟨by decide, by decide, by decide⟩
  · intro N hN
    interval_cases N <;> decide

/-- Witness for C2 (amended): after 3 timeouts the pending interval is
`min (4*2^3) 32 = 32`, and the 4th timeout returns to INIT. -/
theorem C2_witness :
    (timeoutStep^[3] sAct).cnt_down = 32 ∧ (timeoutStep^[4] sAct).state = 0 :=
  ⟨((C2_backoff_amended.1 3 (by norm_num)).2.1).trans (by norm_num),
    C2_backoff_amended.2.2.2⟩

/-- C3 counterexample: a correlated acknowledgment carrying a lease-duration
option of 7200 seconds, received in REQUESTING with a stored (offer-time)
lease duration of 3600, is accepted (return 1) but its options are NOT
committed: the lease duration stays 3600 and the renewal countdown becomes
1800 = 3600/2, although the option parser applied to the same packet yields
7200. -/
theorem C3_cex :
    (packetloop_dhcp_initial_ip_assignment true ackBuf7200 292 sReq).ret = 1 ∧
    (packetloop_dhcp_initial_ip_assignment true ackBuf7200 292 sReq).st.leasetime = 3600 ∧
    (dhcp_option_parse ackBuf7200 292 sReq).2.leasetime = 7200 ∧
    (packetloop_dhcp_initial_ip_assignment true ackBuf7200 292 sReq).st.cnt_down = 1800 := by
  decide

/-- C3 amended: on a correlated acknowledgment the initial-assignment entry
point transitions to BOUND, sets the renewal countdown to one half of the
STORED lease duration (committed when the offer was parsed), disables
broadcast reception and returns 1 — but does not parse the acknowledgment's
options: mask, router, name server, server identifier and lease duration
keep their offer-time values. -/
theorem C3_ack_commit_amended (buf : Nat → Nat) (plen : Nat) (s : DhcpState)
    (hst : s.state ≤ 2) (hpl : plen ≠ 0)
    (hm : (is_dhcp_msg_for_me buf plen s).1 = 1)
    (hcmd : dhcp_get_message_type buf plen = 5)
    (hL2 : s.leasetime / 2 ≠ 0) :
    (packetloop_dhcp_initial_ip_assignment true buf plen s).ret = 1 ∧
    (packetloop_dhcp_initial_ip_assignment true buf plen s).st.state = 3 ∧
    (packetloop_dhcp_initial_ip_assignment true buf plen s).st.cnt_down = s.leasetime / 2 ∧
    (packetloop_dhcp_initial_ip_assignment true buf plen s).st.mask = s.mask ∧
    (packetloop_dhcp_initial_ip_assignment true buf plen s).st.defaultgw = s.defaultgw ∧
    (packetloop_dhcp_initial_ip_assignment true buf plen s).st.dns = s.dns ∧
    (packetloop_dhcp_initial_ip_assignment true buf plen s).st.server_id = s.server_id ∧
    (packetloop_dhcp_initial_ip_assignment true buf plen s).st.leasetime = s.leasetime ∧
    (packetloop_dhcp_initial_ip_assignment true buf plen s).evs = [Event.disableBroadcast] := by
  obtain ⟨y, hy⟩ := is_for_me_shape buf plen s
  rw [initial_ack_eval buf plen s hst hpl hm hcmd, hy]
  simp [set_dhcp_renew_timer, is_dhcp_cnt_down_zero, hL2]

/-- Witness for C3 (amended): the concrete acknowledgment of the
counterexample, evaluated through the amended theorem. -/
theorem C3_witness :
    (packetloop_dhcp_initial_ip_assignment true ackBuf7200 292 sReq).ret = 1 ∧
    (packetloop_dhcp_initial_ip_assignment true ackBuf7200 292 sReq).st.state = 3 ∧
    (packetloop_dhcp_initial_ip_assignment true ackBuf7200 292 sReq).st.leasetime = sReq.leasetime :=
  (fun h => ⟨h.1, h.2.1, h.2.2.2.2.2.2.2.1⟩)
    (C3_ack_commit_amended ackBuf7200 292 sReq (by decide) (by decide)
      (by decide) (by decide) (by decide))

/-- C5 counterexample: at countdown value 0 the tick does not saturate: it
wraps past zero to the all-ones sentinel 4294967295. -/
theorem C5_cex :
    dhcp0.cnt_down = 0 ∧ (dhcp_tick dhcp0).cnt_down = 4294967295 := by
  decide

/-- C5 amended: the tick leaves the all-ones sentinel unchanged and
decrements any other nonzero countdown by exactly one; but at countdown 0 it
wraps to the all-ones sentinel (32-bit wrap-around), so the semantics are
not saturating at zero. -/
theorem C5_tick_amended (s : DhcpState) :
    (s.cnt_down = 4294967295 → dhcp_tick s = s) ∧
    (0 < s.cnt_down → s.cnt_down < 4294967295 →
      (dhcp_tick s).cnt_down = s.cnt_down - 1) ∧
    (s.cnt_down = 0 → (dhcp_tick s).cnt_down = 4294967295) := by
  refine ⟨?_, ?_, ?_⟩
  · intro h
    unfold dhcp_tick
    rw [if_neg (by omega)]
  · intro h1 h2
    unfold dhcp_tick
    rw [if_pos (by omega)]
    show (s.cnt_down + 4294967295) % 4294967296 = s.cnt_down - 1
    omega
  · intro h
    unfold dhcp_tick
    rw [if_pos (by omega)]
    show (s.cnt_down + 4294967295) % 4294967296 = 4294967295
    omega

/-- Witness for C5 (amended): concrete countdown values 4294967295, 5 and 0. -/
theorem C5_witness :
    dhcp_tick { dhcp0 with cnt_down := 4294967295 }
      = { dhcp0 with cnt_down := 4294967295 } ∧
    (dhcp_tick { dhcp0 with cnt_down := 5 }).cnt_down = 4 ∧
    (dhcp_tick dhcp0).cnt_down = 4294967295 :=
  ⟨(C5_tick_amended _).1 rfl,
    (C5_tick_amended { dhcp0 with cnt_down := 5 }).2.1 (by decide) (by decide),
    (C5_tick_amended dhcp0).2.2 rfl⟩

/-- C7: every inbound packet (nonzero length) shorter than the fixed header
plus the magic marker is rejected by the message-acceptance check (result 0)
and leaves the whole engine state unchanged through both entry points, which
return 0 resp. the original length (no error surfaced). -/
theorem C7_short_packet_ignored (linkup : Bool) (buf : Nat → Nat)
    (plen : Nat) (s : DhcpState) (h0 : 0 < plen)
    (hshort : plen < UDP_DATA_P + MAGIC_COOKIE_P + 4) :
    is_dhcp_msg_for_me buf plen s = (0, s) ∧
    (packetloop_dhcp_initial_ip_assignment linkup buf plen s).st = s ∧
    (packetloop_dhcp_initial_ip_assignment linkup buf plen s).ret = 0 ∧
    (packetloop_dhcp_renewhandler linkup buf plen s).st = s ∧
    (packetloop_dhcp_renewhandler linkup buf plen s).ret = plen := by
  have hm : is_dhcp_msg_for_me buf plen s = (0, s) := by
    unfold is_dhcp_msg_for_me
    rw [if_pos (by
      simp only [UDP_DATA_P, MAGIC_COOKIE_P, DHCP_OPTION_OFFSET] at *
      omega)]
  have hpl : plen ≠ 0 := by omega
  refine ⟨hm, ?_⟩
  cases linkup <;>
    simp [packetloop_dhcp_initial_ip_assignment, packetloop_dhcp_renewhandler,
      hpl, hm]

/-- Witness for C7: a 100-byte packet leaves a REQUESTING engine untouched. -/
theorem C7_witness :
    is_dhcp_msg_for_me anybuf 100 sReq = (0, sReq) ∧
    (packetloop_dhcp_initial_ip_assignment true anybuf 100 sReq).st = sReq ∧
    (packetloop_dhcp_initial_ip_assignment true anybuf 100 sReq).ret = 0 ∧
    (packetloop_dhcp_renewhandler true anybuf 100 sReq).st = sReq ∧
    (packetloop_dhcp_renewhandler true anybuf 100 sReq).ret = 100 :=
  C7_short_packet_ignored true anybuf 100 sReq (by decide) (by decide)

/-- The engine state after an unanswered renewal cycle: transaction id `t`,
retry counter `r`, lease state `st`, countdown re-armed to one eighth of the
lease duration (proof plumbing for the renewal-cycle chain). -/
def afterCycle (s : DhcpState) (t r st : Nat) : DhcpState :=
  { s with tid := t, state := st, cnt_down := s.leasetime / 8, retry := r }

/-- C4: with lease duration L, entering BOUND arms the renewal countdown to
L/2; a renewal-countdown expiry on a zero-length poll moves the engine to
REBINDING with countdown L/8, an incremented transaction identifier,
broadcast reception re-enabled and a renewal request sent; unanswered
renewal cycles 1..3 stay in REBINDING and the 4th returns the lease state to
INIT. -/
theorem C4_renewal_scheduling (s : DhcpState) (h3 : s.state = 3)
    (hr : s.retry = 0) (hc : s.cnt_down = 0) (hL : s.leasetime < 4294967296)
    (h8 : s.leasetime / 8 ≠ 0) :
    (set_dhcp_renew_timer 2 s).cnt_down = s.leasetime / 2 ∧
    (packetloop_dhcp_renewhandler true anybuf 0 s).st.state = 4 ∧
    (packetloop_dhcp_renewhandler true anybuf 0 s).st.cnt_down = s.leasetime / 8 ∧
    (packetloop_dhcp_renewhandler true anybuf 0 s).st.tid = (s.tid + 1) % 256 ∧
    (packetloop_dhcp_renewhandler true anybuf 0 s).evs
      = [Event.enableBroadcast, Event.sendRenewRequest] ∧
    (∀ k, 1 ≤ k → k ≤ 3 → (renewCycle^[k] s).state = 4) ∧
    (renewCycle^[4] s).state = 0 := by
  have hL8 : s.leasetime / 8 < 4294967295 := by
    have h1 : s.leasetime / 8 ≤ 4294967296 / 8 :=
      Nat.div_le_div_right (le_of_lt hL)
    omega
  have hpoll := renew_expiry_poll anybuf s (Or.inl h3) hc h8
  have e1 : renewCycle s = afterCycle s ((s.tid + 1) % 256) 1 4 := by
    unfold afterCycle
    rw [renewCycle_cont s (Or.inl h3) (by omega) h8 (by omega), hr]
  have e2 : renewCycle (afterCycle s ((s.tid + 1) % 256) 1 4)
      = afterCycle s (((s.tid + 1) % 256 + 1) % 256) 2 4 := by
    have h := renewCycle_cont (afterCycle s ((s.tid + 1) % 256) 1 4)
      (Or.inr rfl) hL8 h8 (show (1 + 1) % 256 ≤ 3 by norm_num)
    rw [h]
    unfold afterCycle
    norm_num
  have e3 : renewCycle (afterCycle s (((s.tid + 1) % 256 + 1) % 256) 2 4)
      = afterCycle s ((((s.tid + 1) % 256 + 1) % 256 + 1) % 256) 3 4 := by
    have h := renewCycle_cont (afterCycle s (((s.tid + 1) % 256 + 1) % 256) 2 4)
      (Or.inr rfl) hL8 h8 (show (2 + 1) % 256 ≤ 3 by norm_num)
    rw [h]
    unfold afterCycle
    norm_num
  have e4 : renewCycle (afterCycle s ((((s.tid + 1) % 256 + 1) % 256 + 1) % 256) 3 4)
      = afterCycle s (((((s.tid + 1) % 256 + 1) % 256 + 1) % 256 + 1) % 256) 4 0 := by
    have h := renewCycle_giveup (afterCycle s ((((s.tid + 1) % 256 + 1) % 256 + 1) % 256) 3 4)
      (Or.inr rfl) hL8 h8 (show 3 < (3 + 1) % 256 by norm_num)
    rw [h]
    unfold afterCycle
    norm_num
  refine ⟨?_, ?_, ?_, ?_, ?_, ?_, ?_⟩
  · simp only [set_dhcp_renew_timer]
    split <;> rfl
  · simp [hpoll, hr]
  · simp [hpoll]
  · simp [hpoll]
  · simp [hpoll]
  · intro k h1 h2
    have E1 : renewCycle^[1] s = afterCycle s ((s.tid + 1) % 256) 1 4 := by
      rw [Function.iterate_one]
      exact e1
    have E2 : renewCycle^[2] s
        = afterCycle s (((s.tid + 1) % 256 + 1) % 256) 2 4 := by
      rw [show renewCycle^[2] s = renewCycle (renewCycle^[1] s) from
        Function.iterate_succ_apply' renewCycle 1 s, E1, e2]
    have E3 : renewCycle^[3] s
        = afterCycle s ((((s.tid + 1) % 256 + 1) % 256 + 1) % 256) 3 4 := by
      rw [show renewCycle^[3] s = renewCycle (renewCycle^[2] s) from
        Function.iterate_succ_apply' renewCycle 2 s, E2, e3]
    interval_cases k
    · rw [E1]
      rfl
    · rw [E2]
      rfl
    · rw [E3]
      rfl
  · have E1 : renewCycle^[1] s = afterCycle s ((s.tid + 1) % 256) 1 4 := by
      rw [Function.iterate_one]
      exact e1
    have E2 : renewCycle^[2] s
        = afterCycle s (((s.tid + 1) % 256 + 1) % 256) 2 4 := by
      rw [show renewCycle^[2] s = renewCycle (renewCycle^[1] s) from
        Function.iterate_succ_apply' renewCycle 1 s, E1, e2]
    have E3 : renewCycle^[3] s
        = afterCycle s ((((s.tid + 1) % 256 + 1) % 256 + 1) % 256) 3 4 := by
      rw [show renewCycle^[3] s = renewCycle (renewCycle^[2] s) from
        Function.iterate_succ_apply' renewCycle 2 s, E2, e3]
    rw [show renewCycle^[4] s = renewCycle (renewCycle^[3] s) from
      Function.iterate_succ_apply' renewCycle 3 s, E3, e4]
    rfl

/-- Witness for C4: a BOUND lease of 16 seconds is renewed at 8 = 16/2, a
renewal expiry re-arms to 2 = 16/8, and 4 unanswered cycles give up. -/
theorem C4_witness :
    (set_dhcp_renew_timer 2 sBound).cnt_down = 8 ∧
    (packetloop_dhcp_renewhandler true anybuf 0 sBound).st.state = 4 ∧
    (packetloop_dhcp_renewhandler true anybuf 0 sBound).st.cnt_down = 2 ∧
    (renewCycle^[3] sBound).state = 4 ∧
    (renewCycle^[4] sBound).state = 0 :=
  have h := C4_renewal_scheduling sBound rfl rfl rfl (by decide) (by decide)
  ⟨h.1.trans (by decide), h.2.1, (h.2.2.1).trans (by decide),
    h.2.2.2.2.2.1 3 (by decide) (by decide), h.2.2.2.2.2.2⟩

/-- C6: a correlated negative acknowledgment (message kind 6) received in
REQUESTING through the initial-assignment entry point, or in REBINDING
through the renew handler, resets the lease state to INIT; both entry points
return 0 (no error value surfaced upward). -/
theorem C6_nak_to_init (buf : Nat → Nat) (plen : Nat) (s : DhcpState)
    (hpl : plen ≠ 0) (hm : (is_dhcp_msg_for_me buf plen s).1 = 1)
    (hcmd : dhcp_get_message_type buf plen = 6) :
    (s.state = 2 →
      (packetloop_dhcp_initial_ip_assignment true buf plen s).st.state = 0 ∧
      (packetloop_dhcp_initial_ip_assignment true buf plen s).ret = 0) ∧
    (s.state = 4 →
      (packetloop_dhcp_renewhandler true buf plen s).st.state = 0 ∧
      (packetloop_dhcp_renewhandler true buf plen s).ret = 0) := by
  obtain ⟨y, hy⟩ := is_for_me_shape buf plen s
  constructor
  · intro h2
    simp [packetloop_dhcp_initial_ip_assignment, hpl, hm, hcmd, h2, hy]
  · intro h4
    simp [packetloop_dhcp_renewhandler, hpl, hm, hcmd, h4, hy]

/-- Witness for C6: a concrete correlated negative acknowledgment drives a
REQUESTING and a REBINDING engine back to INIT. -/
theorem C6_witness :
    (packetloop_dhcp_initial_ip_assignment true nakBuf 286 sReq).st.state = 0 ∧
    (packetloop_dhcp_renewhandler true nakBuf 286 { sReq with state := 4 }).st.state = 0 :=
  ⟨((C6_nak_to_init nakBuf 286 sReq (by decide) (by decide) (by decide)).1 rfl).1,
    ((C6_nak_to_init nakBuf 286 { sReq with state := 4 } (by decide) (by decide)
      (by decide)).2 rfl).1⟩

/-- C8 counterexample: a correlated acknowledgment CARRYING a lease-duration
option of 1 second, received while the stored (offer-time) lease duration is
3600, makes the initial-assignment entry point return 1 with the lease state
ending at BOUND — not INIT as the claim states, because the acknowledgment's
options are never parsed by this entry point. -/
theorem C8_cex :
    (packetloop_dhcp_initial_ip_assignment true ackBufLease1 292 sReq).ret = 1 ∧
    (packetloop_dhcp_initial_ip_assignment true ackBufLease1 292 sReq).st.state = 3 := by
  decide

/-- C8 amended: whenever `set_dhcp_renew_timer` is called with the held
lease duration strictly smaller than its divisor (quotient zero), for any
divisor and any engine state, it resets the lease state to INIT with a zero
countdown — in particular a rebinding expiry whose committed lease duration
is below 8 drops straight back to INIT through the renew handler's
divisor-8 call; consequently a correlated acknowledgment received while the
STORED lease duration is 0 or 1 makes the initial-assignment entry point
return 1 ("lease acquired") with the lease state ending at INIT rather than
BOUND. -/
theorem C8_zero_quotient_amended (buf : Nat → Nat) (plen : Nat)
    (s : DhcpState) (hst : s.state = 2) (hpl : plen ≠ 0)
    (hm : (is_dhcp_msg_for_me buf plen s).1 = 1)
    (hcmd : dhcp_get_message_type buf plen = 5) (hL2 : s.leasetime < 2) :
    (∀ (d : Nat) (t : DhcpState), t.leasetime < d →
      (set_dhcp_renew_timer d t).state = 0 ∧
      (set_dhcp_renew_timer d t).cnt_down = 0) ∧
    (∀ t : DhcpState, 3 ≤ t.state → t.cnt_down = 0 → t.leasetime < 8 →
      (packetloop_dhcp_renewhandler true anybuf 0 t).st.state = 0) ∧
    (packetloop_dhcp_initial_ip_assignment true buf plen s).ret = 1 ∧
    (packetloop_dhcp_initial_ip_assignment true buf plen s).st.state = 0 := by
  have hq2 : s.leasetime / 2 = 0 := Nat.div_eq_of_lt hL2
  obtain ⟨y, hy⟩ := is_for_me_shape buf plen s
  refine ⟨?_, ?_, ?_, ?_⟩
  · intro d t hlt
    have hq : t.leasetime / d = 0 := Nat.div_eq_of_lt hlt
    constructor <;> simp [set_dhcp_renew_timer, is_dhcp_cnt_down_zero, hq]
  · intro t h3 hc hL8
    have hq : t.leasetime / 8 = 0 := Nat.div_eq_of_lt hL8
    simp [packetloop_dhcp_renewhandler, set_dhcp_renew_timer,
      is_dhcp_cnt_down_zero, Nat.not_lt.mpr h3, hc, hq]
  · rw [initial_ack_eval buf plen s (by omega) hpl hm hcmd]
  · rw [initial_ack_eval buf plen s (by omega) hpl hm hcmd, hy]
    simp [set_dhcp_renew_timer, is_dhcp_cnt_down_zero, hq2]

/-- Witness for C8 (amended): the zero-quotient reset at divisor 8 with
stored lease duration 5, the renew handler's rebinding expiry with a
committed 5-second lease falling back to INIT, and the concrete
acknowledgment of the counterexample with stored lease duration 1. -/
theorem C8_witness :
    (set_dhcp_renew_timer 8 { sReq with leasetime := 5 }).state = 0 ∧
    (packetloop_dhcp_renewhandler true anybuf 0
      { sBound with leasetime := 5 }).st.state = 0 ∧
    (packetloop_dhcp_initial_ip_assignment true ackBufLease1 292
      { sReq with leasetime := 1 }).ret = 1 ∧
    (packetloop_dhcp_initial_ip_assignment true ackBufLease1 292
      { sReq with leasetime := 1 }).st.state = 0 :=
  have h := C8_zero_quotient_amended ackBufLease1 292
    { sReq with leasetime := 1 } rfl (by decide) (by decide)
    (by decide) (by decide)
  ⟨(h.1 8 { sReq with leasetime := 5 } (by decide)).1,
    h.2.1 { sBound with leasetime := 5 } (by decide) (by decide) (by decide),
    h.2.2.1, h.2.2.2⟩

/-- C9: in the peer-resolution step (`init_state == 2`), the orchestrator
advances to the name-resolution step (`init_state = 3`) only when both
link-layer addresses have already been recorded by the resolution callbacks;
a step that issues a resolution request never advances; and the two
callbacks commute, with the step advancing once both have fired in either
order. -/
theorem C9_peer_resolution (o : OrchState) (h2 : o.init_state = 2) :
    ((resolvePeersStep o).1.init_state = 3 →
      o.have_dns_mac = true ∧ o.have_ntp_mac = true) ∧
    ((resolvePeersStep o).2 ≠ [] → (resolvePeersStep o).1.init_state ≠ 3) ∧
    arpresolver_result_callback .dnsReq (arpresolver_result_callback .ntpReq o)
      = arpresolver_result_callback .ntpReq (arpresolver_result_callback .dnsReq o) ∧
    (resolvePeersStep (arpresolver_result_callback .dnsReq
      (arpresolver_result_callback .ntpReq o))).1.init_state = 3 := by
  obtain ⟨i, ds, ar, dn, hd, hn⟩ := o
  simp only at h2
  subst h2
  cases hd <;> cases hn <;>
    simp [resolvePeersStep, arpresolver, arpresolver_result_callback] <;>
    split_ifs <;> simp_all

/-- Witness for C9: from a fresh peer-resolution state with neither mac
recorded, firing both callbacks (time-sync first) advances the step to
name resolution. -/
theorem C9_witness :
    (resolvePeersStep (arpresolver_result_callback .dnsReq
      (arpresolver_result_callback .ntpReq ⟨2, 0, 0, 0, false, false⟩))).1.init_state = 3 :=
  (C9_peer_resolution ⟨2, 0, 0, 0, false, false⟩ rfl).2.2.2

end NtpClock
